import Mathlib

/-!
Verification of the upstream-server selection and health-tracking core of
the trust-dns resolver (`src/resolver/src/name_server_pool.rs`), via a
shallow embedding of its data model and operations.

Time is modelled as `Nat` milliseconds (the code uses `Instant` /
`Duration`; `MAX_RETRY_DELAYs = 360` seconds becomes `360000` ms).
Panics and lock poisoning are made explicit: a panicking construction is
`Option.none`, and the per-server stats mutex is a cell carrying a
`poisoned` flag, as in `std::sync::Mutex`.
-/

namespace TrustDns

/-- The EDNS extension payload. Opaque to this module: it is only stored,
cloned and compared for presence. -/
structure Edns where
  payload : Nat
  deriving DecidableEq, Repr

/-- Client errors, from `trust_dns::error`. The module uses
`ClientErrorKind::Message` (static string) and `ClientErrorKind::Msg`
(formatted string). -/
inductive ClientError where
  | message (s : String)
  | msg (s : String)
  deriving DecidableEq, Repr

/-- A DNS message; opaque except for its optional EDNS payload
(`response.edns()`). -/
structure Message where
  id : Nat
  edns : Option Edns
  deriving DecidableEq, Repr

/-- `MIN_RETRY_DELAYms` (line 28); present in the source but unused by the
reconnect decision. -/
def MIN_RETRY_DELAYms : Nat := 500

/-- `MAX_RETRY_DELAYs = 360` seconds (line 29), expressed in milliseconds
to match the model's clock. -/
def MAX_RETRY_DELAYms : Nat := 360 * 1000

/-- `NameServerState` (lines 32-45): state of a connection with a remote
name server. -/
inductive NameServerState where
  | init (send_edns : Option Edns)
  | established (remote_edns : Option Edns)
  | failed (error : ClientError) (when_ : Nat)
  deriving DecidableEq, Repr

namespace NameServerState

/-- `NameServerState::to_usize` (lines 48-54): rank used for ordering,
Init = 3, Established = 2, Failed = 1. -/
def to_usize : NameServerState → Nat
  | .init _ => 3
  | .established _ => 2
  | .failed _ _ => 1

/-- `Ord for NameServerState` (lines 57-61): compare by rank only. -/
def cmp (a b : NameServerState) : Ordering :=
  compare a.to_usize b.to_usize

/-- `PartialEq for NameServerState` (lines 69-73): equality is rank-level
only, payloads ignored. -/
def beq (a b : NameServerState) : Bool :=
  a.to_usize == b.to_usize

def isInit : NameServerState → Prop
  | .init _ => True
  | _ => False

def isEstablished : NameServerState → Prop
  | .established _ => True
  | _ => False

def isFailed : NameServerState → Prop
  | .failed _ _ => True
  | _ => False

instance : DecidablePred isInit := fun s =>
  match s with
  | .init _ => isTrue trivial
  | .established _ => isFalse fun h => h
  | .failed _ _ => isFalse fun h => h

instance : DecidablePred isEstablished := fun s =>
  match s with
  | .init _ => isFalse fun h => h
  | .established _ => isTrue trivial
  | .failed _ _ => isFalse fun h => h

instance : DecidablePred isFailed := fun s =>
  match s with
  | .init _ => isFalse fun h => h
  | .established _ => isFalse fun h => h
  | .failed _ _ => isTrue trivial

end NameServerState

/-- `NameServerStats` (lines 77-82): connection state plus lifetime
success/failure counters. -/
structure NameServerStats where
  state : NameServerState
  successes : Nat
  failures : Nat
  deriving DecidableEq, Repr

namespace NameServerStats

/-- `NameServerStats::init` (lines 91-97). -/
def init (send_edns : Option Edns) (successes failures : Nat) : NameServerStats :=
  { state := .init send_edns, successes, failures }

/-- `Default for NameServerStats` (lines 84-88): `init(None, 0, 0)`. -/
def default : NameServerStats := init none 0 0

/-- Derived `PartialEq` on `NameServerStats` (line 77): fieldwise, with
the rank-level equality of `NameServerState`. -/
def beq (a b : NameServerStats) : Bool :=
  a.state.beq b.state && a.successes == b.successes && a.failures == b.failures

/-- `NameServerStats::next_success` (lines 99-119): increment `successes`
and move to `Established`; when the response carries no EDNS, preserve the
EDNS of a previously `Established` state. -/
def next_success (s : NameServerStats) (remote_edns : Option Edns) : NameServerStats :=
  { s with
    successes := s.successes + 1
    state :=
      if remote_edns.isSome then
        .established remote_edns
      else
        .established
          (match s.state with
           | .established re => re
           | _ => none) }

/-- `NameServerStats::next_failure` (lines 121-126): increment `failures`
and move to `Failed`. -/
def next_failure (s : NameServerStats) (error : ClientError) (when_ : Nat) : NameServerStats :=
  { s with
    failures := s.failures + 1
    state := .failed error when_ }

/-- `Ord for NameServerStats` (lines 129-154): equality short-circuit,
then state rank, then the inverted failure comparison
(`self.failures <= other.failures` returns `Greater`), then successes. -/
def cmp (a b : NameServerStats) : Ordering :=
  if beq a b then .eq
  else
    match a.state.cmp b.state with
    | .eq =>
        if a.failures ≤ b.failures then .gt
        else compare a.successes b.successes
    | o => o

end NameServerStats

/-- Transport protocol of a configured name server. Modelled from the
spec: the `config::Protocol` enum is not under `src/`; the spec gives
`protocol ∈ enum{UDP, TCP, TLS}` and the source matches on
`Protocol::Udp`, `Protocol::Tcp` and a catch-all. -/
inductive Protocol where
  | udp
  | tcp
  | tls
  deriving DecidableEq, Repr

/-- A name server's configuration (address + protocol). Modelled from the
spec: `ServerConfig { address, protocol }`; the source reads
`config.socket_addr` and `config.protocol`. The socket address is opaque
here. -/
structure NameServerConfig where
  socket_addr : Nat
  protocol : Protocol
  deriving DecidableEq, Repr

/-- A live transport handle (`BasicClientHandle`). Opaque to this module
beyond how it was built; `generation` distinguishes a rebuilt transport
from the one it replaced. -/
structure BasicClientHandle where
  addr : Nat
  protocol : Protocol
  generation : Nat
  deriving DecidableEq, Repr

/-- `NameServer::new_connection` (lines 171-186): UDP and TCP build a
client; every other protocol hits `_ => unimplemented!()`, a panic,
modelled as `none`. -/
def new_connection (config : NameServerConfig) (generation : Nat) :
    Option BasicClientHandle :=
  match config.protocol with
  | .udp => some { addr := config.socket_addr, protocol := .udp, generation }
  | .tcp => some { addr := config.socket_addr, protocol := .tcp, generation }
  | .tls => none

/-- `NameServer` (lines 162-168). The `Arc<Mutex<NameServerStats>>` cell
is modelled by the `stats` field together with the `poisoned` flag of its
mutex; every lock acquisition in the source checks poisoning first. -/
structure NameServer where
  config : NameServerConfig
  client : BasicClientHandle
  poisoned : Bool
  stats : NameServerStats
  deriving DecidableEq, Repr

namespace NameServer

/-- `NameServer::new` (lines 188-198): build the first connection
(`none` when that construction panics) and fresh default stats. -/
def new (config : NameServerConfig) : Option NameServer :=
  (new_connection config 0).map fun client =>
    { config, client, poisoned := false, stats := .default }

/-- `NameServer::try_reconnect` (lines 200-235). Reads the state under
the lock (surfacing poisoning as a `Msg` error); in `Failed` state,
reconnects only when `now - when > MAX_RETRY_DELAY`, rebuilding the
transport and installing a fresh stats cell that keeps the counters;
otherwise replays the stored error. Outer `none` models a panic of the
transport rebuild. -/
def try_reconnect (ns : NameServer) (now : Nat) :
    Option (Except ClientError NameServer) :=
  if ns.poisoned then
    some (.error (.msg "Error acquiring NameServerStats lock"))
  else
    match ns.stats.state with
    | .failed error when_ =>
        if MAX_RETRY_DELAYms < now - when_ then
          match new_connection ns.config (ns.client.generation + 1) with
          | some client =>
              some (.ok { ns with
                            client := client
                            poisoned := false
                            stats := .init none ns.stats.successes ns.stats.failures })
          | none => none
        else
          some (.error error)
    | _ => some (.ok ns)

end NameServer

/-- Outcome of the underlying transport send, an input of the model: the
future returned by `self.client.send(message)` resolves to a response or
a `ClientError`. -/
inductive TransportOutcome where
  | ok (response : Message)
  | err (error : ClientError)
  deriving DecidableEq, Repr

/-- The `and_then` closure of `NameServer::send` (lines 250-261): on a
transport success, acquire the stats lock and apply `next_success`; a
poisoned lock is surfaced to the caller as an error and the stats are
left untouched. -/
def on_success (poisoned : Bool) (stats : NameServerStats) (response : Message) :
    Except ClientError Message × NameServerStats :=
  if poisoned then
    (.error (.msg "Error acquiring NameServerStats lock"), stats)
  else
    (.ok response, stats.next_success response.edns)

/-- The `or_else` closure of `NameServer::send` (lines 262-278): on a
transport failure, acquire the stats lock and apply `next_failure`; a
poisoned lock is logged and discarded, and the original transport error
is returned to the caller either way. -/
def on_failure (poisoned : Bool) (stats : NameServerStats) (error : ClientError)
    (now : Nat) : ClientError × NameServerStats :=
  if poisoned then
    (error, stats)
  else
    (error, stats.next_failure error now)

/-- Result of one `NameServer::send` call: the resolved value, the
server's state afterwards, and whether the underlying transport was
invoked at all. -/
structure SendResult where
  result : Except ClientError Message
  ns : NameServer
  transportCalled : Bool
  deriving Repr

/-- `NameServer::send` (lines 239-279): `try_reconnect` first, failing
fast (no transport call) on its error; otherwise one transport attempt
whose outcome drives the success/failure bookkeeping. The stats mutex is
only re-acquired inside the outcome closures, so a concurrent task that
panics while holding the lock during the transport await is observed
there: `poisonedInFlight` models that interleaving. Outer `none` models
a panic inside `try_reconnect`. -/
def NameServer.sendAux (ns : NameServer) (now : Nat) (outcome : TransportOutcome)
    (poisonedInFlight : Bool) : Option SendResult :=
  match ns.try_reconnect now with
  | none => none
  | some (.error e) => some { result := .error e, ns := ns, transportCalled := false }
  | some (.ok ns₁) =>
      let ns' := { ns₁ with poisoned := ns₁.poisoned || poisonedInFlight }
      match outcome with
      | .ok response =>
          let (r, stats) := on_success ns'.poisoned ns'.stats response
          some { result := r, ns := { ns' with stats }, transportCalled := true }
      | .err e =>
          let (r, stats) := on_failure ns'.poisoned ns'.stats e now
          some { result := .error r, ns := { ns' with stats }, transportCalled := true }

/-- `NameServer::send` in the race-free sequential case: no concurrent
poisoning while the transport call is in flight. -/
def NameServer.send (ns : NameServer) (now : Nat) (outcome : TransportOutcome) :
    Option SendResult :=
  ns.sendAux now outcome false

/-- `Ord for NameServer` (lines 282-298): equal configs compare equal,
otherwise delegate to the stats comparator. -/
def NameServer.cmp (a b : NameServer) : Ordering :=
  if a.config == b.config then .eq else a.stats.cmp b.stats

/-- Resolver tuning options, opaque to this module (stored, never
interpreted). -/
structure ResolverOpts where
  dummy : Nat := 0
  deriving DecidableEq, Repr

/-- `NameServerPool` (lines 315-319): a priority collection of name
servers plus the options. -/
structure NameServerPool where
  conns : List NameServer
  opts : ResolverOpts
  deriving DecidableEq, Repr

/-- `BinaryHeap::peek_mut` (line 342): `none` on an empty heap, otherwise
some element the heap holds maximal under `NameServer::cmp`; modelled as
a fold selecting a `cmp`-greatest element. -/
def peekMax : List NameServer → Option NameServer
  | [] => none
  | c :: cs => some (cs.foldl (fun best x => if x.cmp best = .gt then x else best) c)

/-- `NameServerPool::send` (lines 340-351): with no connections, resolve
immediately with the `"No connections available"` error and no transport
call; otherwise delegate to the selected server. The `Bool` is whether a
transport call was issued. -/
def NameServerPool.send (pool : NameServerPool) (now : Nat)
    (outcome : TransportOutcome) : Option (Except ClientError Message × Bool) :=
  match peekMax pool.conns with
  | none => some (.error (.message "No connections available"), false)
  | some conn => (conn.send now outcome).map fun r => (r.result, r.transportCalled)

/-- The atomic transitions the send path applies to a server's stats
cell, each one lock acquisition, with the guards the code enforces:
`reconnect` is `try_reconnect`'s reset, available only in an expired
`Failed` state; `success`/`failure` are the outcome transitions, which
run only after `try_reconnect` returned `Ok`, at which point the state
is never `Failed` (`try_reconnect_ok_shape`). -/
inductive StatsStep : NameServerStats → NameServerStats → Prop
  | reconnect (s : NameServerStats) (error : ClientError) (when_ now : Nat)
      (hs : s.state = .failed error when_)
      (hexp : MAX_RETRY_DELAYms < now - when_) :
      StatsStep s (.init none s.successes s.failures)
  | success (s : NameServerStats) (remote_edns : Option Edns)
      (hs : ¬ s.state.isFailed) :
      StatsStep s (s.next_success remote_edns)
  | failure (s : NameServerStats) (error : ClientError) (now : Nat)
      (hs : ¬ s.state.isFailed) :
      StatsStep s (s.next_failure error now)

/-- A concrete error used by the example fixtures below. -/
def exampleError : ClientError := .message "connection timed out"

/-- Fixture: a UDP name server whose connection failed at time 0, with
two recorded successes and three recorded failures. -/
def ns0 : NameServer :=
  { config := { socket_addr := 7, protocol := .udp }
    client := { addr := 7, protocol := .udp, generation := 0 }
    poisoned := false
    stats := { state := .failed exampleError 0, successes := 2, failures := 3 } }

/-- Fixture: a freshly constructed UDP name server (default stats). -/
def ns1 : NameServer :=
  { config := { socket_addr := 7, protocol := .udp }
    client := { addr := 7, protocol := .udp, generation := 0 }
    poisoned := false
    stats := .default }

/-- After a successful `try_reconnect` the lock is unpoisoned, the state
is never `Failed`, and the stats cell moved by a (possibly empty)
`StatsStep` path: either untouched, or reset by the reconnect step. -/
theorem try_reconnect_ok_shape (ns : NameServer) (now : Nat) (ns' : NameServer)
    (h : ns.try_reconnect now = some (.ok ns')) :
    ns'.poisoned = false ∧ ¬ ns'.stats.state.isFailed ∧
      Relation.ReflTransGen StatsStep ns.stats ns'.stats := by
  unfold NameServer.try_reconnect at h
  by_cases hp : ns.poisoned
  · simp [hp] at h
  · rw [if_neg hp] at h
    cases hst : ns.stats.state with
    | init se =>
        rw [hst] at h
        simp only [Option.some.injEq, Except.ok.injEq] at h
        subst h
        exact ⟨by simpa using hp, by simp [hst, NameServerState.isFailed], .refl⟩
    | established re =>
        rw [hst] at h
        simp only [Option.some.injEq, Except.ok.injEq] at h
        subst h
        exact ⟨by simpa using hp, by simp [hst, NameServerState.isFailed], .refl⟩
    | failed e w =>
        rw [hst] at h
        dsimp only at h
        by_cases hexp : MAX_RETRY_DELAYms < now - w
        · rw [if_pos hexp] at h
          cases hpr : ns.config.protocol with
          | udp =>
              simp only [new_connection, hpr, Option.some.injEq, Except.ok.injEq] at h
              subst h
              refine ⟨rfl, by simp [NameServerStats.init, NameServerState.isFailed], ?_⟩
              exact Relation.ReflTransGen.single (StatsStep.reconnect ns.stats e w now hst hexp)
          | tcp =>
              simp only [new_connection, hpr, Option.some.injEq, Except.ok.injEq] at h
              subst h
              refine ⟨rfl, by simp [NameServerStats.init, NameServerState.isFailed], ?_⟩
              exact Relation.ReflTransGen.single (StatsStep.reconnect ns.stats e w now hst hexp)
          | tls =>
              simp [new_connection, hpr] at h
        · rw [if_neg hexp] at h
          simp at h

/-- Every terminating `send` call moves the stats cell along a
`StatsStep` path: the transition system of `StatsStep` abstracts exactly
the stats mutations the send path can perform. -/
theorem sendAux_stats_steps (ns : NameServer) (now : Nat) (outcome : TransportOutcome)
    (p : Bool) (r : SendResult) (h : ns.sendAux now outcome p = some r) :
    Relation.ReflTransGen StatsStep ns.stats r.ns.stats := by
  unfold NameServer.sendAux at h
  cases htr : ns.try_reconnect now with
  | none => rw [htr] at h; simp at h
  | some res =>
    cases res with
    | error e =>
        rw [htr] at h
        simp only [Option.some.injEq] at h
        subst h
        exact .refl
    | ok ns₁ =>
        obtain ⟨hpo, hnf, hsteps⟩ := try_reconnect_ok_shape ns now ns₁ htr
        rw [htr] at h
        cases outcome with
        | ok response =>
            cases hb : (ns₁.poisoned || p) with
            | true =>
                simp only [on_success, hb, if_pos, Option.some.injEq] at h
                subst h
                exact hsteps
            | false =>
                simp only [on_success, hb, Bool.false_eq_true, if_neg,
                  Option.some.injEq] at h
                subst h
                exact hsteps.tail (StatsStep.success ns₁.stats response.edns hnf)
        | err e =>
            cases hb : (ns₁.poisoned || p) with
            | true =>
                simp only [on_failure, hb, if_pos, Option.some.injEq] at h
                subst h
                exact hsteps
            | false =>
                simp only [on_failure, hb, Bool.false_eq_true, if_neg,
                  Option.some.injEq] at h
                subst h
                exact hsteps.tail (StatsStep.failure ns₁.stats e now hnf)

/-- C1 (counterexample): two `Established` stats with equal rank where
the first has strictly more failures (5 > 1); the comparator does NOT
rank the more-failure one greater — it returns `eq` for it, while the
FEWER-failure one compares `gt`. The claim's preference direction is
inverted with respect to the code. -/
theorem cmp_more_failures_not_preferred_cex :
    NameServerStats.cmp
        { state := .established none, successes := 0, failures := 5 }
        { state := .established none, successes := 0, failures := 1 } = .eq ∧
    NameServerStats.cmp
        { state := .established none, successes := 0, failures := 1 }
        { state := .established none, successes := 0, failures := 5 } = .gt := by
  constructor <;> rfl

/-- C1 (amended): for stats of equal connection-state rank, the
comparator prefers the one with strictly FEWER recorded failures: the
fewer-failure side compares `Greater` (and is thus selected first by the
max-heap pool). -/
theorem cmp_fewer_failures_preferred (a b : NameServerStats)
    (hrank : a.state.to_usize = b.state.to_usize)
    (hf : a.failures < b.failures) : a.cmp b = .gt := by
  have hc : a.state.cmp b.state = .eq := by
    unfold NameServerState.cmp
    exact Nat.compare_eq_eq.mpr hrank
  have hb : NameServerStats.beq a b = false := by
    unfold NameServerStats.beq
    have hne : (a.failures == b.failures) = false := by
      simpa using Nat.ne_of_lt hf
    simp [hne]
  unfold NameServerStats.cmp
  rw [hb, hc]
  simp [Nat.le_of_lt hf]

/-- Witness for C1's amended theorem at a concrete pair. -/
theorem cmp_fewer_failures_preferred_witness :
    NameServerStats.cmp
        { state := .established none, successes := 4, failures := 1 }
        { state := .established none, successes := 0, failures := 5 } = .gt :=
  cmp_fewer_failures_preferred
    { state := .established none, successes := 4, failures := 1 }
    { state := .established none, successes := 0, failures := 5 }
    (by decide) (by decide)

/-- C6: when the connection-state ranks differ
(Init = 3 > Established = 2 > Failed = 1), the higher-rank stats compare
`Greater` and the lower-rank ones `Less`, regardless of the success and
failure counters. -/
theorem cmp_rank_dominates (a b : NameServerStats)
    (h : b.state.to_usize < a.state.to_usize) :
    a.cmp b = .gt ∧ b.cmp a = .lt := by
  have hne : a.state.to_usize ≠ b.state.to_usize := Nat.ne_of_gt h
  have hba : NameServerStats.beq a b = false := by
    unfold NameServerStats.beq NameServerState.beq
    have : (a.state.to_usize == b.state.to_usize) = false := by simpa using hne
    simp [this]
  have hbb : NameServerStats.beq b a = false := by
    unfold NameServerStats.beq NameServerState.beq
    have : (b.state.to_usize == a.state.to_usize) = false := by
      simpa using hne.symm
    simp [this]
  have hca : a.state.cmp b.state = .gt := by
    unfold NameServerState.cmp
    exact Nat.compare_eq_gt.mpr h
  have hcb : b.state.cmp a.state = .lt := by
    unfold NameServerState.cmp
    exact Nat.compare_eq_lt.mpr h
  constructor
  · unfold NameServerStats.cmp
    rw [hba, hca]
    rfl
  · unfold NameServerStats.cmp
    rw [hbb, hcb]
    rfl

/-- Witness for C6 at a concrete pair: an `Init` server with terrible
counters still outranks an `Established` one with perfect counters. -/
theorem cmp_rank_dominates_witness :
    NameServerStats.cmp
        { state := .init none, successes := 0, failures := 100 }
        { state := .established none, successes := 50, failures := 0 } = .gt ∧
    NameServerStats.cmp
        { state := .established none, successes := 50, failures := 0 }
        { state := .init none, successes := 0, failures := 100 } = .lt :=
  cmp_rank_dominates
    { state := .init none, successes := 0, failures := 100 }
    { state := .established none, successes := 50, failures := 0 }
    (by decide)

/-- C7: with equal connection-state rank and equal failure counts, the
stats value with strictly fewer successes compares `Greater` (preferred).
(The code returns `Greater` from the `failures <= failures` test before
ever reaching the successes comparison, so the fewer-success side indeed
compares preferred — see the C10 theorem for the flip side.) -/
theorem cmp_equal_failures_fewer_successes_preferred (a b : NameServerStats)
    (hrank : a.state.to_usize = b.state.to_usize)
    (hf : a.failures = b.failures)
    (hs : a.successes < b.successes) : a.cmp b = .gt := by
  have hc : a.state.cmp b.state = .eq := by
    unfold NameServerState.cmp
    exact Nat.compare_eq_eq.mpr hrank
  have hb : NameServerStats.beq a b = false := by
    unfold NameServerStats.beq
    have hne : (a.successes == b.successes) = false := by
      simpa using Nat.ne_of_lt hs
    simp [hne]
  unfold NameServerStats.cmp
  rw [hb, hc]
  simp [Nat.le_of_eq hf]

/-- Witness for C7 at a concrete pair. -/
theorem cmp_equal_failures_fewer_successes_preferred_witness :
    NameServerStats.cmp
        { state := .established none, successes := 1, failures := 2 }
        { state := .established none, successes := 6, failures := 2 } = .gt :=
  cmp_equal_failures_fewer_successes_preferred
    { state := .established none, successes := 1, failures := 2 }
    { state := .established none, successes := 6, failures := 2 }
    (by decide) (by decide) (by decide)

/-- C10: the comparator is not antisymmetric: two unequal stats (equal
state rank, equal failures, different successes) both compare `Greater`
against each other, so `Ord for NameServerStats` is not a lawful total
order for the pool's binary heap. -/
theorem cmp_not_antisymmetric :
    (({ state := .established none, successes := 0, failures := 0 } :
        NameServerStats) ≠
      { state := .established none, successes := 1, failures := 0 }) ∧
    NameServerStats.beq
        { state := .established none, successes := 0, failures := 0 }
        { state := .established none, successes := 1, failures := 0 } = false ∧
    NameServerStats.cmp
        { state := .established none, successes := 0, failures := 0 }
        { state := .established none, successes := 1, failures := 0 } = .gt ∧
    NameServerStats.cmp
        { state := .established none, successes := 1, failures := 0 }
        { state := .established none, successes := 0, failures := 0 } = .gt := by
  refine ⟨by decide, rfl, rfl, rfl⟩

/-- C5: the success transition always lands in `Established` and bumps
`successes` by exactly one, whatever the prior state; and when the
response carries no EDNS payload while the server was already
`Established` with negotiated EDNS, that EDNS is retained, not
cleared. -/
theorem next_success_established_and_preserves_edns (s : NameServerStats)
    (re : Option Edns) :
    (s.next_success re).successes = s.successes + 1 ∧
    (s.next_success re).state.isEstablished ∧
    (∀ e : Edns, re = none → s.state = .established (some e) →
      (s.next_success re).state = .established (some e)) := by
  refine ⟨rfl, ?_, ?_⟩
  · unfold NameServerStats.next_success
    by_cases h : re.isSome
    · simp [h, NameServerState.isEstablished]
    · simp [h, NameServerState.isEstablished]
  · intro e hre hs
    subst hre
    unfold NameServerStats.next_success
    simp [hs]

/-- Witness for C5 at a concrete input: an `Established` server with
negotiated EDNS `42` receiving a success with no EDNS payload keeps
EDNS `42`. -/
theorem next_success_established_and_preserves_edns_witness :
    (NameServerStats.next_success
        { state := .established (some { payload := 42 }),
          successes := 3, failures := 1 } none).state =
      .established (some { payload := 42 }) :=
  (next_success_established_and_preserves_edns
      { state := .established (some { payload := 42 }),
        successes := 3, failures := 1 } none).2.2
    { payload := 42 } rfl rfl

/-- C3: transport construction for the TLS protocol does NOT fail fast
with an "unsupported protocol" error — it hits the catch-all
`_ => unimplemented!()` arm and panics (modelled as `none`), both in
`new_connection` and hence in `NameServer::new`. -/
theorem new_connection_tls_panics :
    new_connection { socket_addr := 7, protocol := .tls } 0 = none ∧
    NameServer.new { socket_addr := 7, protocol := .tls } = none :=
  ⟨rfl, rfl⟩

/-- C8: a pool with an empty server collection resolves immediately with
the `"No connections available"` error and issues no transport call. -/
theorem pool_send_empty_no_connections (opts : ResolverOpts) (now : Nat)
    (outcome : TransportOutcome) :
    NameServerPool.send { conns := [], opts := opts } now outcome =
      some (.error (.message "No connections available"), false) :=
  rfl

/-- C9: when the stats mutex is poisoned at bookkeeping time (a
concurrent task panicked while the transport call was in flight): on a
transport success the lock error is surfaced to the caller as the call's
error; on a transport failure the lock error is discarded and the
original transport error reaches the caller unchanged. In both cases no
stats transition is applied. -/
theorem send_poisoned_lock_paths (ns ns' : NameServer) (now : Nat)
    (htr : ns.try_reconnect now = some (.ok ns'))
    (response : Message) (e : ClientError) :
    (∃ r, ns.sendAux now (.ok response) true = some r ∧
        r.result = .error (.msg "Error acquiring NameServerStats lock") ∧
        r.ns.stats = ns'.stats ∧ r.transportCalled = true) ∧
    (∃ r, ns.sendAux now (.err e) true = some r ∧
        r.result = .error e ∧
        r.ns.stats = ns'.stats ∧ r.transportCalled = true) := by
  have h1 : ns.sendAux now (.ok response) true =
      some { result := .error (.msg "Error acquiring NameServerStats lock"),
             ns := { ns' with poisoned := true },
             transportCalled := true } := by
    unfold NameServer.sendAux
    rw [htr]
    simp [on_success]
  have h2 : ns.sendAux now (.err e) true =
      some { result := .error e,
             ns := { ns' with poisoned := true },
             transportCalled := true } := by
    unfold NameServer.sendAux
    rw [htr]
    simp [on_failure]
  exact ⟨⟨_, h1, rfl, rfl, rfl⟩, ⟨_, h2, rfl, rfl, rfl⟩⟩

/-- Witness for C9 at a concrete input: a healthy server whose lock is
poisoned mid-flight. -/
theorem send_poisoned_lock_paths_witness :
    (∃ r, ns1.sendAux 0 (.ok { id := 1, edns := none }) true = some r ∧
        r.result = .error (.msg "Error acquiring NameServerStats lock") ∧
        r.ns.stats = ns1.stats ∧ r.transportCalled = true) ∧
    (∃ r, ns1.sendAux 0 (.err exampleError) true = some r ∧
        r.result = .error exampleError ∧
        r.ns.stats = ns1.stats ∧ r.transportCalled = true) :=
  send_poisoned_lock_paths ns1 ns1 0 rfl { id := 1, edns := none } exampleError

/-- C2 (counterexample): `ns0` failed at T = 0 with three failures on
record; a send arriving exactly at `T + max_retry_delay` (360000 ms) is
NOT reconnected as the claim requires — the reconnect test is strictly
`>`, so this call still fails fast with the cached error and issues no
transport call. -/
theorem send_at_exact_max_delay_cex :
    ns0.try_reconnect 360000 = some (.error exampleError) ∧
    ns0.send 360000 (.ok { id := 1, edns := none }) =
      some { result := .error exampleError, ns := ns0, transportCalled := false } := by
  constructor <;> rfl

/-- C2 (amended): for a server failed at `w` (lock healthy): any send at
`now` with `now - w ≤ max_retry_delay` — i.e. up to AND INCLUDING the
boundary instant — issues no transport call and fails with the cached
error, leaving the server untouched; any call with
`now - w > max_retry_delay` (strictly after the boundary) rebuilds the
transport (next generation), resets the stats cell to a fresh
`Initializing`, preserves both counters, and issues a transport call. -/
theorem send_backoff_and_reconnect (ns : NameServer) (e : ClientError) (w now : Nat)
    (hp : ns.poisoned = false) (hs : ns.stats.state = .failed e w) :
    (now - w ≤ MAX_RETRY_DELAYms →
      ∀ outcome, ns.send now outcome =
        some { result := .error e, ns := ns, transportCalled := false }) ∧
    (MAX_RETRY_DELAYms < now - w → ns.config.protocol ≠ .tls →
      ∃ ns', ns.try_reconnect now = some (.ok ns') ∧
        ns'.stats = NameServerStats.init none ns.stats.successes ns.stats.failures ∧
        ns'.client.generation = ns.client.generation + 1 ∧
        ∀ outcome, ∃ r, ns.send now outcome = some r ∧ r.transportCalled = true) := by
  have hpneg : ¬ ns.poisoned = true := by simp [hp]
  constructor
  · intro hle outcome
    have htr : ns.try_reconnect now = some (.error e) := by
      unfold NameServer.try_reconnect
      rw [if_neg hpneg, hs]
      dsimp only
      rw [if_neg (Nat.not_lt.mpr hle)]
    unfold NameServer.send NameServer.sendAux
    rw [htr]
  · intro hgt hntls
    cases hpr : ns.config.protocol with
    | tls => exact absurd hpr hntls
    | udp =>
        have htr : ns.try_reconnect now =
            some (.ok { config := ns.config
                        client := { addr := ns.config.socket_addr, protocol := .udp,
                                    generation := ns.client.generation + 1 }
                        poisoned := false
                        stats := .init none ns.stats.successes ns.stats.failures }) := by
          unfold NameServer.try_reconnect
          rw [if_neg hpneg, hs]
          dsimp only
          rw [if_pos hgt]
          simp [new_connection, hpr]
        refine ⟨_, htr, rfl, rfl, ?_⟩
        intro outcome
        unfold NameServer.send NameServer.sendAux
        rw [htr]
        cases outcome with
        | ok response => exact ⟨_, rfl, rfl⟩
        | err e2 => exact ⟨_, rfl, rfl⟩
    | tcp =>
        have htr : ns.try_reconnect now =
            some (.ok { config := ns.config
                        client := { addr := ns.config.socket_addr, protocol := .tcp,
                                    generation := ns.client.generation + 1 }
                        poisoned := false
                        stats := .init none ns.stats.successes ns.stats.failures }) := by
          unfold NameServer.try_reconnect
          rw [if_neg hpneg, hs]
          dsimp only
          rw [if_pos hgt]
          simp [new_connection, hpr]
        refine ⟨_, htr, rfl, rfl, ?_⟩
        intro outcome
        unfold NameServer.send NameServer.sendAux
        rw [htr]
        cases outcome with
        | ok response => exact ⟨_, rfl, rfl⟩
        | err e2 => exact ⟨_, rfl, rfl⟩

/-- Witness for C2's amended theorem on the `ns0` fixture: a call at
exactly the boundary replays the cached error without a transport call;
a call 1 ms later reconnects, preserving the counters (2, 3). -/
theorem send_backoff_and_reconnect_witness :
    (ns0.send 360000 (.err exampleError) =
      some { result := .error exampleError, ns := ns0, transportCalled := false }) ∧
    (∃ ns', ns0.try_reconnect 360001 = some (.ok ns') ∧
      ns'.stats = NameServerStats.init none ns0.stats.successes ns0.stats.failures ∧
      ns'.client.generation = ns0.client.generation + 1 ∧
      ∀ outcome, ∃ r, ns0.send 360001 outcome = some r ∧ r.transportCalled = true) :=
  ⟨(send_backoff_and_reconnect ns0 exampleError 0 360000 rfl rfl).1
      (by decide) (.err exampleError),
   (send_backoff_and_reconnect ns0 exampleError 0 360001 rfl rfl).2
      (by decide) (by decide)⟩

/-- C4: along any `StatsStep` path (the atomic stats transitions the
send path can perform: reconnect reset, success transition, failure
transition) from a `Failed` state to an `Established` state, the cell
passes through an `Initializing` state — there is no direct
Failed-to-Established move, because the outcome transitions are guarded
by `try_reconnect` having left a non-`Failed` state. -/
theorem failed_reaches_established_only_via_init :
    ∀ a b : NameServerStats, Relation.ReflTransGen StatsStep a b →
      a.state.isFailed → b.state.isEstablished →
      ∃ c : NameServerStats, Relation.ReflTransGen StatsStep a c ∧
        Relation.ReflTransGen StatsStep c b ∧ c.state.isInit := by
  intro a b hpath hfa hfb
  rcases hpath.cases_head with heq | ⟨x, hstep, hrest⟩
  · subst heq
    cases hc : a.state with
    | init se => rw [hc] at hfa; exact False.elim hfa
    | established re => rw [hc] at hfa; exact False.elim hfa
    | failed e w => rw [hc] at hfb; exact False.elim hfb
  · cases hstep with
    | reconnect err w now hs hexp =>
        exact ⟨_, Relation.ReflTransGen.single (StatsStep.reconnect a err w now hs hexp),
               hrest, trivial⟩
    | success re hns => exact absurd hfa hns
    | failure err now hns => exact absurd hfa hns

/-- Witness for C4: a concrete two-step path
Failed → (reconnect at 360001 ms) → Initializing → (success) →
Established, on which the theorem produces the `Initializing`
waypoint. -/
theorem failed_reaches_established_only_via_init_witness :
    ∃ c : NameServerStats, Relation.ReflTransGen StatsStep
        { state := .failed exampleError 0, successes := 0, failures := 1 } c ∧
      Relation.ReflTransGen StatsStep c
        { state := .established none, successes := 1, failures := 1 } ∧
      c.state.isInit :=
  failed_reaches_established_only_via_init
    { state := .failed exampleError 0, successes := 0, failures := 1 }
    { state := .established none, successes := 1, failures := 1 }
    (Relation.ReflTransGen.tail
      (Relation.ReflTransGen.single
        (StatsStep.reconnect
          { state := .failed exampleError 0, successes := 0, failures := 1 }
          exampleError 0 360001 rfl (by decide)))
      (StatsStep.success (NameServerStats.init none 0 1) none (fun h => h)))
    trivial trivial

end TrustDns
